import Mathlib

/-!
Shallow embedding of the authentication / rate-limiting layer of the
`pvestal/agentic-persona` backend (`src/backend/auth/security.py` and
`src/backend/api/auth.py`), together with theorems settling the spec claims.

Times are modelled as natural-number UTC timestamps in seconds.  The JWT
library (`python-jose`) is modelled symbolically: a token carries its claims,
the secret it was signed with, and a well-formedness flag; `jwt.decode`
succeeds exactly when the token is well formed, its secret matches the
process secret, and (unless expiry verification is disabled) it is unexpired
(`jose` raises `ExpiredSignatureError` iff `exp < now`).  Redis is modelled
as a key-value store together with a connection status: the client may be
absent (`self.redis_client is None`), working, raising on every call, or
raising on writes only (a transient failure during `setex`/`incr`).
-/

namespace AgenticPersona

/-- JWT claims dictionary: `{"sub": ..., "type": ..., "iat": ..., "exp": ...}`. -/
structure Claims where
  sub : String
  typ : String
  iat : Nat
  exp : Nat
deriving DecidableEq, Repr

/-- A serialized JWT.  `secret` is the key it was signed with (signature
verifies iff it equals the process secret); `wellFormed = false` models a
malformed or tampered token string. -/
structure Token where
  claims : Claims
  secret : String
  wellFormed : Bool
deriving DecidableEq, Repr

/-- The relevant fields of `backend.config.Settings`. -/
structure Settings where
  secretKey : String
  accessTokenExpireMinutes : Nat
  refreshTokenExpireDays : Nat
  rateLimitEnabled : Bool
  rateLimitPerMinute : Nat
  rateLimitPerHour : Nat
  rateLimitPerDay : Nat
deriving Repr

/-- Redis connection status wrapped around a store of type `σ`:
`absent` = `self.redis_client is None`; `ok` = all calls succeed;
`failing` = every call raises; `writeFailing` = reads succeed, writes raise. -/
inductive RConn (σ : Type) where
  | absent : RConn σ
  | ok (s : σ) : RConn σ
  | failing : RConn σ
  | writeFailing (s : σ) : RConn σ
deriving Repr

/-- The token blacklist: maps a token (standing for the redis key
`blacklist:{token}`) to the absolute timestamp at which the entry expires. -/
def BStore : Type := Token → Option Nat

/-- `SETEX blacklist:{t} ttl "1"` at time `now`: the entry lives until `now + ttl`. -/
def bSet (s : BStore) (t : Token) (now ttl : Nat) : BStore :=
  fun t2 => if t2 = t then some (now + ttl) else s t2

/-- `GET blacklist:{t}` at time `now`: truthy iff an entry is present and its
TTL has not elapsed (redis removes a key once its expiry time is reached). -/
def bGet (s : BStore) (now : Nat) (t : Token) : Bool :=
  match s t with
  | some e => now < e
  | none => false

/-- The empty blacklist. -/
def bEmpty : BStore := fun _ => none

/-- Result of `SecurityManager.decode_token`: the payload, an
`HTTPException(status_code, detail)`, or a non-HTTP exception propagating out
of the method (a raising redis call is not a `JWTError`, so it escapes the
`try`). -/
inductive DecodeResult where
  | ok (payload : Claims)
  | httpError (statusCode : Nat) (detail : String)
  | raised
deriving DecidableEq, Repr

/-- `SecurityManager.decode_token` (security.py lines 102-126): `jwt.decode`
with expiry verification (any `JWTError` becomes 401 "Could not validate
credentials"), then, when a redis client exists, the blacklist lookup
(a hit becomes 401 "Token has been revoked"; a raising lookup propagates). -/
def decode_token (secret : String) (conn : RConn BStore) (now : Nat)
    (t : Token) : DecodeResult :=
  if t.wellFormed ∧ t.secret = secret ∧ ¬ t.claims.exp < now then
    match conn with
    | .absent => .ok t.claims
    | .ok s => if bGet s now t then .httpError 401 "Token has been revoked" else .ok t.claims
    | .failing => .raised
    | .writeFailing s =>
        if bGet s now t then .httpError 401 "Token has been revoked" else .ok t.claims
  else
    .httpError 401 "Could not validate credentials"

/-- `SecurityManager.blacklist_token` (security.py lines 128-151).  Without a
client it logs and returns; otherwise it decodes the token with
`verify_exp: False` (signature still checked), computes
`ttl = expire_time or max(exp - now, 0)` (Python `or`: a `None` or `0`
argument falls through to the computed TTL), and calls `SETEX` when
`ttl > 0`.  Any exception (bad signature, raising redis call) is caught and
logged, leaving the store unchanged. -/
def blacklist_token (secret : String) (conn : RConn BStore) (now : Nat)
    (t : Token) (expire_time : Option Nat) : RConn BStore :=
  match conn with
  | .absent => .absent
  | .failing => .failing
  | .writeFailing s => .writeFailing s
  | .ok s =>
    if t.wellFormed ∧ t.secret = secret then
      let ttl : Nat :=
        match expire_time with
        | some e => if e = 0 then t.claims.exp - now else e
        | none => t.claims.exp - now
      if ttl > 0 then .ok (bSet s t now ttl) else .ok s
    else
      .ok s

/-- A rate-limit counter entry: the count, and the TTL argument of the last
`EXPIRE` if one was issued (`INCR` on a missing key creates it with no TTL). -/
structure CEntry where
  count : Nat
  ttl : Option Nat
deriving DecidableEq, Repr

/-- The rate-limit counter store, keyed by the literal redis key string. -/
def CStore : Type := String → Option CEntry

/-- The empty counter store. -/
def cEmpty : CStore := fun _ => none

/-- `INCR key`: create-at-1 on a missing key, else increment; returns the new
count together with the updated store. -/
def cIncr (s : CStore) (k : String) : Nat × CStore :=
  match s k with
  | some e => (e.count + 1, fun k2 => if k2 = k then some ⟨e.count + 1, e.ttl⟩ else s k2)
  | none => (1, fun k2 => if k2 = k then some ⟨1, none⟩ else s k2)

/-- `EXPIRE key w`. -/
def cExpire (s : CStore) (k : String) (w : Nat) : CStore :=
  fun k2 =>
    match s k2 with
    | some e => if k2 = k then some ⟨e.count, some w⟩ else some e
    | none => none

/-- The count currently stored under `k` (0 when the key is missing). -/
def cCount (s : CStore) (k : String) : Nat :=
  match s k with
  | some e => e.count
  | none => 0

/-- The f-string key
`rate_limit:{user_id}:{request_type}:{window_name}:{current_time // window_size}`. -/
def rateKey (userId requestType windowName : String) (windowSize now : Nat) : String :=
  "rate_limit:" ++ userId ++ ":" ++ requestType ++ ":"
    ++ (windowName ++ ":" ++ toString (now / windowSize))

/-- The `windows` dict of `check_rate_limit`, in insertion order. -/
def windowsList (st : Settings) : List (String × Nat × Nat) :=
  [("minute", 60, st.rateLimitPerMinute),
   ("hour", 3600, st.rateLimitPerHour),
   ("day", 86400, st.rateLimitPerDay)]

/-- The `for window_name, (window_size, limit) in windows.items()` loop body of
`check_rate_limit`: increment, set expiry when the count became 1, reject as
soon as a limit is exceeded. -/
def rateLoop (userId requestType : String) (now : Nat) :
    List (String × Nat × Nat) → CStore → Bool × CStore
  | [], s => (true, s)
  | (windowName, windowSize, limit) :: rest, s =>
    let key := rateKey userId requestType windowName windowSize now
    let r := cIncr s key
    let s2 := if r.1 = 1 then cExpire r.2 key windowSize else r.2
    if r.1 > limit then (false, s2)
    else rateLoop userId requestType now rest s2

/-- `SecurityManager.check_rate_limit` (security.py lines 172-207): `True`
when limiting is disabled or the client is absent; otherwise the window loop,
with any raising store call caught and converted to `True` (fail-open). -/
def check_rate_limit (st : Settings) (conn : RConn CStore) (now : Nat)
    (userId requestType : String) : Bool × RConn CStore :=
  if ¬ st.rateLimitEnabled then (true, conn)
  else
    match conn with
    | .absent => (true, .absent)
    | .failing => (true, .failing)
    | .writeFailing s => (true, .writeFailing s)
    | .ok s =>
      let r := rateLoop userId requestType now (windowsList st) s
      (r.1, .ok r.2)

/-- `SecurityManager.create_access_token` (security.py lines 60-79).
`expires_delta` is a `timedelta` in seconds; Python's `if expires_delta:`
treats a zero delta as falsy, falling back to the configured default. -/
def create_access_token (st : Settings) (now : Nat) (subject : String)
    (expires_delta : Option Nat) : Token :=
  let expire : Nat :=
    match expires_delta with
    | some d => if d ≠ 0 then now + d else now + st.accessTokenExpireMinutes * 60
    | none => now + st.accessTokenExpireMinutes * 60
  { claims := { sub := subject, typ := "access", iat := now, exp := expire },
    secret := st.secretKey, wellFormed := true }

/-- `SecurityManager.create_refresh_token` (security.py lines 81-100). -/
def create_refresh_token (st : Settings) (now : Nat) (subject : String)
    (expires_delta : Option Nat) : Token :=
  let expire : Nat :=
    match expires_delta with
    | some d => if d ≠ 0 then now + d else now + st.refreshTokenExpireDays * 86400
    | none => now + st.refreshTokenExpireDays * 86400
  { claims := { sub := subject, typ := "refresh", iat := now, exp := expire },
    secret := st.secretKey, wellFormed := true }

/-- Password errors appended by `validate_password_strength`
(security.py lines 209-232), in source order. -/
def lengthError : String := "Password must be at least 8 characters long"

/-- The special-character class of the regex `[!@#$%^&*(),.?\":{}|<>]`
(braces written as escapes). -/
def specialChars : List Char :=
  ['!', '@', '#', '$', '%', '^', '&', '*', '(', ')', ',', '.', '?', '"',
   ':', '\x7b', '\x7d', '|', '<', '>']

/-- `re.search(r"[A-Z]", password)` as a boolean. -/
def hasUpper (p : String) : Bool := p.data.any fun c => 'A' ≤ c && c ≤ 'Z'

/-- `re.search(r"[a-z]", password)` as a boolean. -/
def hasLower (p : String) : Bool := p.data.any fun c => 'a' ≤ c && c ≤ 'z'

/-- `re.search(r"\d", password)` as a boolean (ASCII digits). -/
def hasDigit (p : String) : Bool := p.data.any fun c => '0' ≤ c && c ≤ '9'

/-- `re.search(r"[!@#$%^&*(),.?\":{}|<>]", password)` as a boolean. -/
def hasSpecial (p : String) : Bool := p.data.any fun c => specialChars.contains c

/-- The `errors` list built by `validate_password_strength`. -/
def passwordErrors (p : String) : List String :=
  (if p.length < 8 then [lengthError] else [])
  ++ (if ¬ hasUpper p then ["Password must contain at least one uppercase letter"] else [])
  ++ (if ¬ hasLower p then ["Password must contain at least one lowercase letter"] else [])
  ++ (if ¬ hasDigit p then ["Password must contain at least one digit"] else [])
  ++ (if ¬ hasSpecial p then ["Password must contain at least one special character"] else [])

/-- `SecurityManager._calculate_password_strength` (security.py lines
234-264): the cumulative score over length thresholds and character classes. -/
def passwordScore (p : String) : Nat :=
  (if p.length ≥ 8 then 1 else 0)
  + (if p.length ≥ 12 then 1 else 0)
  + (if p.length ≥ 16 then 1 else 0)
  + (if hasUpper p then 1 else 0)
  + (if hasLower p then 1 else 0)
  + (if hasDigit p then 1 else 0)
  + (if hasSpecial p then 1 else 0)

/-- The score-to-tier mapping of `_calculate_password_strength`. -/
def calculate_password_strength (p : String) : String :=
  let score := passwordScore p
  if score < 3 then "weak"
  else if score < 5 then "medium"
  else if score < 7 then "strong"
  else "very_strong"

/-- The result dict of `validate_password_strength`. -/
structure PasswordValidation where
  valid : Bool
  errors : List String
  strength : String
deriving DecidableEq, Repr

/-- `SecurityManager.validate_password_strength` (security.py lines 209-232). -/
def validate_password_strength (p : String) : PasswordValidation :=
  { valid := (passwordErrors p).length = 0,
    errors := passwordErrors p,
    strength := calculate_password_strength p }

/-- The fields of the `User` model used by the auth flows. -/
structure UserRec where
  id : String
  username : String
  hashedPassword : String
  isActive : Bool
deriving DecidableEq, Repr

/-- Symbolic model of `pwd_context.hash` (bcrypt, external library): an
injective one-way tag of the password. -/
def get_password_hash (password : String) : String :=
  "bcrypt$" ++ password

/-- Symbolic model of `pwd_context.verify`: succeeds exactly on the password
the hash was derived from. -/
def verify_password (plain hashed : String) : Bool :=
  get_password_hash plain = hashed

/-- `select(User).where(User.id == user_id, User.is_active == True)`:
the lookup used by `get_current_user` and the refresh endpoint. -/
def findActiveById (db : List UserRec) (userId : String) : Option UserRec :=
  db.find? fun u => u.id = userId && u.isActive

/-- `select(User).where(User.username == form_data.username)`. -/
def findByUsername (db : List UserRec) (username : String) : Option UserRec :=
  db.find? fun u => u.username = username

/-- Outcome of an API call: a value or an `HTTPException`. -/
inductive ApiResult (α : Type) where
  | ok (value : α)
  | httpError (statusCode : Nat) (detail : String)
deriving DecidableEq, Repr

/-- The token pair returned by login and refresh. -/
structure TokenPair where
  access_token : Token
  refresh_token : Token
deriving DecidableEq, Repr

/-- `get_current_user` (security.py lines 272-312): decode the bearer token
(an `HTTPException` re-raises; any other exception, e.g. a raising redis
lookup, becomes 401 "Could not validate credentials"), then fetch the active
user by the `sub` claim (missing user is 401 "User not found"). -/
def get_current_user (st : Settings) (conn : RConn BStore) (db : List UserRec)
    (now : Nat) (token : Token) : ApiResult UserRec :=
  match decode_token st.secretKey conn now token with
  | .raised => .httpError 401 "Could not validate credentials"
  | .httpError c d => .httpError c d
  | .ok payload =>
    match findActiveById db payload.sub with
    | none => .httpError 401 "User not found"
    | some user => .ok user

/-- `get_current_active_user` (security.py lines 315-324): 403 when
`current_user.is_active` is false, else the user. -/
def get_current_active_user (st : Settings) (conn : RConn BStore)
    (db : List UserRec) (now : Nat) (token : Token) : ApiResult UserRec :=
  match get_current_user st conn db now token with
  | .httpError c d => .httpError c d
  | .ok user =>
    if ¬ user.isActive then .httpError 403 "Inactive user" else .ok user

/-- The `login` endpoint (api/auth.py lines 103-178): username lookup and
password check (uniform 401 on either failure), inactive check (403), the
login rate limit (429), then the new token pair.  Returns the result together
with the rate-limiter connection as left by the call; audit logging and the
last-login update are external writes outside this model's state. -/
def login (st : Settings) (connC : RConn CStore) (db : List UserRec)
    (now : Nat) (username password : String) :
    ApiResult TokenPair × RConn CStore :=
  match findByUsername db username with
  | none => (.httpError 401 "Incorrect username or password", connC)
  | some user =>
    if ¬ verify_password password user.hashedPassword then
      (.httpError 401 "Incorrect username or password", connC)
    else if ¬ user.isActive then
      (.httpError 403 "User account is disabled", connC)
    else
      let r := check_rate_limit st connC now user.id "login"
      if ¬ r.1 then (.httpError 429 "Too many login attempts", r.2)
      else
        (.ok ⟨create_access_token st now user.id none,
              create_refresh_token st now user.id none⟩, r.2)

/-- The `refresh_token` endpoint (api/auth.py lines 181-230): decode the
refresh token (`HTTPException` re-raises; other exceptions become 401
"Invalid refresh token"), require `type == "refresh"` (else 401 "Invalid
token type"), fetch the active user (else 401 "User not found"), issue a new
pair, then blacklist the old refresh token — whose internal failure handling
never raises — and return the pair. -/
def refresh_endpoint (st : Settings) (conn : RConn BStore) (db : List UserRec)
    (now : Nat) (r : Token) : ApiResult TokenPair × RConn BStore :=
  match decode_token st.secretKey conn now r with
  | .raised => (.httpError 401 "Invalid refresh token", conn)
  | .httpError c d => (.httpError c d, conn)
  | .ok payload =>
    if payload.typ ≠ "refresh" then
      (.httpError 401 "Invalid token type", conn)
    else
      match findActiveById db payload.sub with
      | none => (.httpError 401 "User not found", conn)
      | some user =>
        let conn2 := blacklist_token st.secretKey conn now r none
        (.ok ⟨create_access_token st now user.id none,
              create_refresh_token st now user.id none⟩, conn2)

/-- The TTL recorded under `k` (`none` when the key is missing or no
`EXPIRE` was issued for it). -/
def cTtl (s : CStore) (k : String) : Option Nat :=
  match s k with
  | some e => e.ttl
  | none => none

/-- The store effect of one iteration of the `check_rate_limit` loop on its
key: `INCR`, then `EXPIRE` exactly when the count became 1. -/
def rateStep (s : CStore) (k : String) (w : Nat) : CStore :=
  if (cIncr s k).1 = 1 then cExpire (cIncr s k).2 k w else (cIncr s k).2

/-! Concrete values used by witnesses and counterexamples. -/

/-- A settings record with the repository's configuration defaults
(`backend/config.py`): access 30 min, refresh 7 days, limits 60/1000/10000. -/
def defaultSettings : Settings :=
  { secretKey := "test-secret-key-0123456789abcdef"
    accessTokenExpireMinutes := 30
    refreshTokenExpireDays := 7
    rateLimitEnabled := true
    rateLimitPerMinute := 60
    rateLimitPerHour := 1000
    rateLimitPerDay := 10000 }

/-- A well-formed access token signed with `defaultSettings.secretKey`,
issued at 0, expiring at 100. -/
def sampleAccessToken : Token :=
  { claims := { sub := "u1", typ := "access", iat := 0, exp := 100 },
    secret := defaultSettings.secretKey, wellFormed := true }

/-- A well-formed refresh token signed with `defaultSettings.secretKey`,
issued at 0, expiring at 604800. -/
def sampleRefreshToken : Token :=
  { claims := { sub := "u1", typ := "refresh", iat := 0, exp := 604800 },
    secret := defaultSettings.secretKey, wellFormed := true }

/-- An active user whose stored hash matches password "pw". -/
def sampleActiveUser : UserRec :=
  { id := "u1", username := "alice", hashedPassword := get_password_hash "pw",
    isActive := true }

/-- The same user with the active flag cleared. -/
def sampleInactiveUser : UserRec :=
  { id := "u1", username := "alice", hashedPassword := get_password_hash "pw",
    isActive := false }

/-! ## Helper lemmas -/

lemma cIncr_fst (s : CStore) (k : String) : (cIncr s k).1 = cCount s k + 1 := by
  unfold cIncr cCount
  cases s k <;> simp

lemma rateStep_self (s : CStore) (k : String) (w : Nat) :
    rateStep s k w k =
      some ⟨cCount s k + 1, if cCount s k = 0 then some w else cTtl s k⟩ := by
  unfold rateStep cIncr cExpire cCount cTtl
  cases h : s k
  · simp [h]
  · simp only [h]
    split <;> simp_all

lemma rateStep_other (s : CStore) (k : String) (w : Nat) (k2 : String)
    (h : k2 ≠ k) : rateStep s k w k2 = s k2 := by
  unfold rateStep cIncr cExpire
  cases h2 : s k
  · cases h3 : s k2 <;> simp [h2, h3, h]
  · simp only [h2]
    split <;> cases h3 : s k2 <;> simp [h3, h]

lemma cCount_rateStep_other (s : CStore) (k : String) (w : Nat) (k2 : String)
    (h : k2 ≠ k) : cCount (rateStep s k w) k2 = cCount s k2 := by
  unfold cCount
  rw [rateStep_other s k w k2 h]

lemma rateLoop_cons (u a : String) (now : Nat) (name : String) (w l : Nat)
    (rest : List (String × Nat × Nat)) (s : CStore) :
    rateLoop u a now ((name, w, l) :: rest) s =
      (if cCount s (rateKey u a name w now) + 1 > l then
        (false, rateStep s (rateKey u a name w now) w)
      else rateLoop u a now rest (rateStep s (rateKey u a name w now) w)) := by
  rw [show rateLoop u a now ((name, w, l) :: rest) s =
      (if (cIncr s (rateKey u a name w now)).1 > l then
        (false, rateStep s (rateKey u a name w now) w)
      else rateLoop u a now rest (rateStep s (rateKey u a name w now) w)) from rfl,
    cIncr_fst]

lemma rateKey_minute_ne_hour (u a : String) (i j s1 s2 : Nat) :
    rateKey u a "minute" s1 i ≠ rateKey u a "hour" s2 j := by
  intro h
  have h2 : (rateKey u a "minute" s1 i).data = (rateKey u a "hour" s2 j).data := by rw [h]
  simp only [rateKey, String.data_append] at h2
  have h3 := List.append_cancel_left h2
  simp at h3

lemma rateKey_minute_ne_day (u a : String) (i j s1 s2 : Nat) :
    rateKey u a "minute" s1 i ≠ rateKey u a "day" s2 j := by
  intro h
  have h2 : (rateKey u a "minute" s1 i).data = (rateKey u a "day" s2 j).data := by rw [h]
  simp only [rateKey, String.data_append] at h2
  have h3 := List.append_cancel_left h2
  simp at h3

lemma rateKey_hour_ne_day (u a : String) (i j s1 s2 : Nat) :
    rateKey u a "hour" s1 i ≠ rateKey u a "day" s2 j := by
  intro h
  have h2 : (rateKey u a "hour" s1 i).data = (rateKey u a "day" s2 j).data := by rw [h]
  simp only [rateKey, String.data_append] at h2
  have h3 := List.append_cancel_left h2
  simp at h3

/-! ## Claim theorems -/

/-- C1: `decode_token` (with a working revocation store) returns the token's
claims iff the signature verifies under the process secret (the token is well
formed and signed with it), the token is unexpired, and it is absent from the
revocation store; in every other case the token is rejected with a 401
`HTTPException`. -/
theorem C1_decode_token_validity (secret : String) (s : BStore) (now : Nat)
    (t : Token) :
    (decode_token secret (.ok s) now t = .ok t.claims ↔
      (t.wellFormed = true ∧ t.secret = secret ∧ ¬ t.claims.exp < now ∧
        bGet s now t = false)) ∧
    ((t.wellFormed = true ∧ t.secret = secret ∧ ¬ t.claims.exp < now ∧
        bGet s now t = false) ∨
      ∃ d, decode_token secret (.ok s) now t = .httpError 401 d) := by
  unfold decode_token
  by_cases hc : t.wellFormed = true ∧ t.secret = secret ∧ ¬ t.claims.exp < now
  · rcases hc with ⟨h1, h2, h3⟩
    simp only [h1, h2, h3]
    by_cases hb : bGet s now t = true
    · simp [hb]
    · simp at hb
      simp [hb]
  · have : ¬ (↑t.wellFormed ∧ t.secret = secret ∧ ¬ t.claims.exp < now) := by
      simpa using hc
    simp only [if_neg this]
    constructor
    · constructor
      · intro h
        simp at h
      · intro h
        exact absurd ⟨h.1, h.2.1, h.2.2.1⟩ hc
    · right
      exact ⟨_, rfl⟩

/-- Witness for C1 at a concrete valid token and empty store. -/
theorem C1_witness :
    decode_token defaultSettings.secretKey (.ok bEmpty) 50 sampleAccessToken
      = .ok sampleAccessToken.claims := by
  have h := (C1_decode_token_validity defaultSettings.secretKey bEmpty 50
    sampleAccessToken).1
  exact h.mpr (by decide)

/-- C5 counterexample: `strength_check("P@ssw0rd123!")` does NOT return tier
`very_strong` — the password scores 6 (length 12 gives two length points, and
all four character classes), which the code's own mapping sends to `strong`. -/
theorem C5_counterexample :
    (validate_password_strength "P@ssw0rd123!").strength ≠ "very_strong" := by
  decide

/-- C5 amended: `strength_check("short")` includes the length error, and
`strength_check("P@ssw0rd123!")` returns tier `strong` (its score is 6 under
the ≥8/≥12/≥16 length thresholds plus four character classes, and the mapping
`weak < 3 ≤ medium < 5 ≤ strong < 7 ≤ very_strong` sends 6 to `strong`; a
16-character all-class password does reach `very_strong`). -/
theorem C5_password_strength_amended :
    lengthError ∈ (validate_password_strength "short").errors ∧
    (validate_password_strength "P@ssw0rd123!").strength = "strong" ∧
    passwordScore "P@ssw0rd123!" = 6 ∧
    (validate_password_strength "P@ssw0rdLong123!").strength = "very_strong" := by
  refine ⟨by decide, by decide, by decide, by decide⟩

/-- C6: decoding the token produced by issuing an access token for subject
`s` with positive lifetime `ttl` — before it expires, under the same secret,
with no revocation entry for it — yields claims with `sub = s` and
`type = "access"`. -/
theorem C6_round_trip (st : Settings) (s : BStore) (now v ttl : Nat)
    (subject : String) (httl : 0 < ttl) (hunexp : ¬ now + ttl < v)
    (hunrev : bGet s v (create_access_token st now subject (some ttl)) = false) :
    decode_token st.secretKey (.ok s) v (create_access_token st now subject (some ttl))
      = .ok (create_access_token st now subject (some ttl)).claims ∧
    (create_access_token st now subject (some ttl)).claims.sub = subject ∧
    (create_access_token st now subject (some ttl)).claims.typ = "access" := by
  have hne : ttl ≠ 0 := Nat.pos_iff_ne_zero.mp httl
  refine ⟨?_, by simp [create_access_token, hne], by simp [create_access_token, hne]⟩
  unfold decode_token
  have hexp : (create_access_token st now subject (some ttl)).claims.exp = now + ttl := by
    simp [create_access_token, hne]
  rw [if_pos]
  · simp [hunrev]
  · refine ⟨by simp [create_access_token], by simp [create_access_token], ?_⟩
    rw [hexp]
    exact hunexp

/-- Witness for C6: subject "u1", ttl 60, decoded at time 30. -/
theorem C6_witness :
    decode_token defaultSettings.secretKey (.ok bEmpty) 30
        (create_access_token defaultSettings 0 "u1" (some 60))
      = .ok (create_access_token defaultSettings 0 "u1" (some 60)).claims ∧
    (create_access_token defaultSettings 0 "u1" (some 60)).claims.sub = "u1" ∧
    (create_access_token defaultSettings 0 "u1" (some 60)).claims.typ = "access" :=
  C6_round_trip defaultSettings bEmpty 0 30 60 "u1" (by decide) (by decide) (by decide)

/-- C9: when the username lookup fails, or the supplied password does not
verify against the stored hash, `login` rejects with the uniform 401 and
returns the rate-limiter connection exactly as it received it — for every
possible connection state — so no rate-limit counter is read or incremented
on failed credentials. -/
theorem C9_failed_login_skips_rate_limiter (st : Settings) (connC : RConn CStore)
    (db : List UserRec) (now : Nat) (username password : String)
    (h : findByUsername db username = none ∨
      ∃ u, findByUsername db username = some u ∧
        verify_password password u.hashedPassword = false) :
    login st connC db now username password
      = (.httpError 401 "Incorrect username or password", connC) := by
  unfold login
  rcases h with h | ⟨u, hu, hpw⟩
  · rw [h]
  · rw [hu]
    simp [hpw]

/-- Witness for C9: wrong password for an existing user, with a live
rate-limiter store; the store comes back untouched. -/
theorem C9_witness :
    login defaultSettings (.ok cEmpty) [sampleActiveUser] 0 "alice" "wrong"
      = (.httpError 401 "Incorrect username or password", .ok cEmpty) :=
  C9_failed_login_skips_rate_limiter defaultSettings (.ok cEmpty)
    [sampleActiveUser] 0 "alice" "wrong"
    (Or.inr ⟨sampleActiveUser, by decide, by decide⟩)

/-- C2 counterexample: revocation does NOT outlive expiry as a distinct
rejection.  The sample token (exp 100) is blacklisted at time 10; verifying it
at time 200 yields the generic invalid-credentials 401 produced by the expiry
check inside `jwt.decode`, not the "Token has been revoked" rejection — so
"verifying `t` after `revoke(t)` always returns `RevokedToken`, regardless of
remaining lifetime" fails once the lifetime has run out. -/
theorem C2_counterexample :
    blacklist_token defaultSettings.secretKey (.ok bEmpty) 10 sampleAccessToken none
      = .ok (bSet bEmpty sampleAccessToken 10 90) ∧
    decode_token defaultSettings.secretKey
        (.ok (bSet bEmpty sampleAccessToken 10 90)) 200 sampleAccessToken
      = .httpError 401 "Could not validate credentials" ∧
    DecodeResult.httpError 401 "Could not validate credentials"
      ≠ .httpError 401 "Token has been revoked" := by
  refine ⟨rfl, rfl, by decide⟩

/-- C2 amended: with a working store, after `blacklist_token` is called on a
well-formed, correctly signed token that is still unexpired at revocation
time, every verification strictly before the token's expiry returns the
"Token has been revoked" 401; a verification after expiry instead returns the
invalid-credentials 401, because `jwt.decode` checks expiry before the
blacklist is consulted. -/
theorem C2_revocation_amended (secret : String) (s : BStore)
    (revTime verifyTime : Nat) (t : Token)
    (hwf : t.wellFormed = true) (hsec : t.secret = secret)
    (hrev : revTime < t.claims.exp) :
    (verifyTime < t.claims.exp →
      decode_token secret (blacklist_token secret (.ok s) revTime t none)
        verifyTime t = .httpError 401 "Token has been revoked") ∧
    (t.claims.exp < verifyTime →
      decode_token secret (blacklist_token secret (.ok s) revTime t none)
        verifyTime t = .httpError 401 "Could not validate credentials") := by
  have hpos : 0 < t.claims.exp - revTime := by omega
  have hbl : blacklist_token secret (.ok s) revTime t none
      = .ok (bSet s t revTime (t.claims.exp - revTime)) := by
    unfold blacklist_token
    simp [hwf, hsec, hpos, hrev]
  rw [hbl]
  constructor
  · intro hv
    have hb : bGet (bSet s t revTime (t.claims.exp - revTime)) verifyTime t = true := by
      unfold bGet bSet
      simp
      omega
    have hnl : ¬ t.claims.exp < verifyTime := by omega
    simp [decode_token, hwf, hsec, hnl, hb]
  · intro hv
    have hnc : ¬ (t.wellFormed = true ∧ t.secret = secret ∧
        ¬ t.claims.exp < verifyTime) := by
      intro hcond
      exact hcond.2.2 hv
    unfold decode_token
    rw [if_neg hnc]

/-- Witness for C2 amended: revoked at 10, verified at 50 (revoked) and at
200 (expired). -/
theorem C2_witness :
    (decode_token defaultSettings.secretKey
        (blacklist_token defaultSettings.secretKey (.ok bEmpty) 10
          sampleAccessToken none) 50 sampleAccessToken
      = .httpError 401 "Token has been revoked") ∧
    (decode_token defaultSettings.secretKey
        (blacklist_token defaultSettings.secretKey (.ok bEmpty) 10
          sampleAccessToken none) 200 sampleAccessToken
      = .httpError 401 "Could not validate credentials") :=
  ⟨(C2_revocation_amended defaultSettings.secretKey bEmpty 10 50
      sampleAccessToken rfl rfl (by decide)).1 (by decide),
   (C2_revocation_amended defaultSettings.secretKey bEmpty 10 200
      sampleAccessToken rfl rfl (by decide)).2 (by decide)⟩

/-- C3 counterexample: the revocation check does NOT fail open when the store
raises.  With a raising client, `decode_token` on an otherwise-valid token
propagates the store exception (`.raised`) instead of returning the claims —
the redis error is not a `JWTError`, so it escapes `decode_token`'s `try`. -/
theorem C3_counterexample :
    decode_token defaultSettings.secretKey .failing 50 sampleAccessToken
      = .raised ∧
    DecodeResult.raised ≠ .ok sampleAccessToken.claims := by
  refine ⟨rfl, by decide⟩

/-- C3 amended: `check_rate_limit` fails open in all three unavailability
modes (limiting disabled, absent client, raising store), and the revocation
check treats every token as not revoked when the client is absent; but when
the store call raises during the blacklist lookup, the exception propagates
out of `decode_token` (callers convert it to a 401), so decode of an
otherwise-valid token does not succeed in that mode. -/
theorem C3_fail_open_amended (st : Settings) (conn : RConn CStore)
    (now : Nat) (u a : String) (secret : String) (t : Token) :
    (st.rateLimitEnabled = false →
      check_rate_limit st conn now u a = (true, conn)) ∧
    (check_rate_limit st (.absent) now u a).1 = true ∧
    (check_rate_limit st (.failing) now u a).1 = true ∧
    (t.wellFormed = true → t.secret = secret → ¬ t.claims.exp < now →
      decode_token secret (.absent) now t = .ok t.claims) ∧
    (t.wellFormed = true → t.secret = secret → ¬ t.claims.exp < now →
      decode_token secret (.failing) now t = .raised) := by
  refine ⟨?_, ?_, ?_, ?_, ?_⟩
  · intro hdis
    unfold check_rate_limit
    simp [hdis]
  · unfold check_rate_limit
    split <;> simp
  · unfold check_rate_limit
    split <;> simp
  · intro h1 h2 h3
    unfold decode_token
    rw [if_pos ⟨h1, h2, h3⟩]
  · intro h1 h2 h3
    unfold decode_token
    rw [if_pos ⟨h1, h2, h3⟩]

/-- Witness for C3 amended at concrete inputs. -/
theorem C3_witness :
    check_rate_limit { defaultSettings with rateLimitEnabled := false }
        (.ok cEmpty) 0 "u1" "api" = (true, .ok cEmpty) ∧
    (check_rate_limit defaultSettings (.failing) 0 "u1" "api").1 = true ∧
    decode_token defaultSettings.secretKey (.absent) 50 sampleAccessToken
      = .ok sampleAccessToken.claims :=
  have h := C3_fail_open_amended { defaultSettings with rateLimitEnabled := false }
    (.ok cEmpty) 0 "u1" "api" defaultSettings.secretKey sampleAccessToken
  have h2 := C3_fail_open_amended defaultSettings (.ok cEmpty) 0 "u1" "api"
    defaultSettings.secretKey sampleAccessToken
  ⟨h.1 rfl, h2.2.2.1,
    (C3_fail_open_amended defaultSettings (.ok cEmpty) 50 "u1" "api"
      defaultSettings.secretKey sampleAccessToken).2.2.2.1 rfl rfl (by decide)⟩

lemma cCount_eq_of_eq {s1 s2 : CStore} {k : String} (h : s1 k = s2 k) :
    cCount s1 k = cCount s2 k := by
  unfold cCount
  rw [h]

lemma cTtl_eq_of_eq {s1 s2 : CStore} {k : String} (h : s1 k = s2 k) :
    cTtl s1 k = cTtl s2 k := by
  unfold cTtl
  rw [h]

/-- Full case analysis of `check_rate_limit` over a working store: the
boolean outcome, and the final store observed at each of the three window
keys. -/
lemma check_rate_limit_ok_spec (st : Settings) (s : CStore) (now : Nat)
    (u a : String) (hEn : st.rateLimitEnabled = true) :
    ∃ s2, (check_rate_limit st (.ok s) now u a).2 = .ok s2 ∧
      ((check_rate_limit st (.ok s) now u a).1 = true ↔
        (cCount s (rateKey u a "minute" 60 now) + 1 ≤ st.rateLimitPerMinute ∧
         cCount s (rateKey u a "hour" 3600 now) + 1 ≤ st.rateLimitPerHour ∧
         cCount s (rateKey u a "day" 86400 now) + 1 ≤ st.rateLimitPerDay)) ∧
      s2 (rateKey u a "minute" 60 now) =
        some ⟨cCount s (rateKey u a "minute" 60 now) + 1,
          if cCount s (rateKey u a "minute" 60 now) = 0 then some 60
          else cTtl s (rateKey u a "minute" 60 now)⟩ ∧
      (st.rateLimitPerMinute < cCount s (rateKey u a "minute" 60 now) + 1 →
        s2 (rateKey u a "hour" 3600 now) = s (rateKey u a "hour" 3600 now) ∧
        s2 (rateKey u a "day" 86400 now) = s (rateKey u a "day" 86400 now)) ∧
      (cCount s (rateKey u a "minute" 60 now) + 1 ≤ st.rateLimitPerMinute →
        s2 (rateKey u a "hour" 3600 now) =
          some ⟨cCount s (rateKey u a "hour" 3600 now) + 1,
            if cCount s (rateKey u a "hour" 3600 now) = 0 then some 3600
            else cTtl s (rateKey u a "hour" 3600 now)⟩) ∧
      (cCount s (rateKey u a "minute" 60 now) + 1 ≤ st.rateLimitPerMinute →
        st.rateLimitPerHour < cCount s (rateKey u a "hour" 3600 now) + 1 →
        s2 (rateKey u a "day" 86400 now) = s (rateKey u a "day" 86400 now)) ∧
      (cCount s (rateKey u a "minute" 60 now) + 1 ≤ st.rateLimitPerMinute →
        cCount s (rateKey u a "hour" 3600 now) + 1 ≤ st.rateLimitPerHour →
        s2 (rateKey u a "day" 86400 now) =
          some ⟨cCount s (rateKey u a "day" 86400 now) + 1,
            if cCount s (rateKey u a "day" 86400 now) = 0 then some 86400
            else cTtl s (rateKey u a "day" 86400 now)⟩) := by
  have hmh : rateKey u a "minute" 60 now ≠ rateKey u a "hour" 3600 now :=
    rateKey_minute_ne_hour u a now now 60 3600
  have hmd : rateKey u a "minute" 60 now ≠ rateKey u a "day" 86400 now :=
    rateKey_minute_ne_day u a now now 60 86400
  have hhd : rateKey u a "hour" 3600 now ≠ rateKey u a "day" 86400 now :=
    rateKey_hour_ne_day u a now now 3600 86400
  have hcrl : check_rate_limit st (.ok s) now u a
      = ((rateLoop u a now (windowsList st) s).1,
         .ok (rateLoop u a now (windowsList st) s).2) := by
    unfold check_rate_limit
    rw [if_neg (by simp [hEn])]
  have hwl : windowsList st
      = [("minute", 60, st.rateLimitPerMinute),
         ("hour", 3600, st.rateLimitPerHour),
         ("day", 86400, st.rateLimitPerDay)] := rfl
  have hs1kh : rateStep s (rateKey u a "minute" 60 now) 60 (rateKey u a "hour" 3600 now)
      = s (rateKey u a "hour" 3600 now) := rateStep_other _ _ _ _ hmh.symm
  have hs1kd : rateStep s (rateKey u a "minute" 60 now) 60 (rateKey u a "day" 86400 now)
      = s (rateKey u a "day" 86400 now) := rateStep_other _ _ _ _ hmd.symm
  have hc1kh := cCount_eq_of_eq hs1kh
  have hc1kd := cCount_eq_of_eq hs1kd
  by_cases hm : st.rateLimitPerMinute < cCount s (rateKey u a "minute" 60 now) + 1
  · have hloop : rateLoop u a now (windowsList st) s
        = (false, rateStep s (rateKey u a "minute" 60 now) 60) := by
      rw [hwl, rateLoop_cons, if_pos hm]
    refine ⟨rateStep s (rateKey u a "minute" 60 now) 60,
      by rw [hcrl, hloop], ?_, rateStep_self _ _ _, ?_, ?_, ?_, ?_⟩
    · rw [hcrl, hloop]
      simp only [Bool.false_eq_true, false_iff]
      intro hcon
      omega
    · intro _
      exact ⟨hs1kh, hs1kd⟩
    · intro hx
      exact absurd hx (by omega)
    · intro hx _
      exact absurd hx (by omega)
    · intro hx _
      exact absurd hx (by omega)
  · have hs2hkm : rateStep (rateStep s (rateKey u a "minute" 60 now) 60)
        (rateKey u a "hour" 3600 now) 3600 (rateKey u a "minute" 60 now)
        = rateStep s (rateKey u a "minute" 60 now) 60 (rateKey u a "minute" 60 now) :=
      rateStep_other _ _ _ _ hmh
    have hs2hkh : rateStep (rateStep s (rateKey u a "minute" 60 now) 60)
        (rateKey u a "hour" 3600 now) 3600 (rateKey u a "hour" 3600 now)
        = some ⟨cCount s (rateKey u a "hour" 3600 now) + 1,
            if cCount s (rateKey u a "hour" 3600 now) = 0 then some 3600
            else cTtl s (rateKey u a "hour" 3600 now)⟩ := by
      rw [rateStep_self, hc1kh, cTtl_eq_of_eq hs1kh]
    have hs2hkd : rateStep (rateStep s (rateKey u a "minute" 60 now) 60)
        (rateKey u a "hour" 3600 now) 3600 (rateKey u a "day" 86400 now)
        = s (rateKey u a "day" 86400 now) := by
      rw [rateStep_other _ _ _ _ hhd.symm, hs1kd]
    have hc2kd := cCount_eq_of_eq hs2hkd
    have hstep1 : rateLoop u a now (windowsList st) s
        = rateLoop u a now
            [("hour", 3600, st.rateLimitPerHour), ("day", 86400, st.rateLimitPerDay)]
            (rateStep s (rateKey u a "minute" 60 now) 60) := by
      rw [hwl, rateLoop_cons, if_neg hm]
    by_cases hh : st.rateLimitPerHour < cCount s (rateKey u a "hour" 3600 now) + 1
    · have hloop : rateLoop u a now (windowsList st) s
          = (false, rateStep (rateStep s (rateKey u a "minute" 60 now) 60)
              (rateKey u a "hour" 3600 now) 3600) := by
        rw [hstep1, rateLoop_cons, hc1kh, if_pos hh]
      refine ⟨rateStep (rateStep s (rateKey u a "minute" 60 now) 60)
          (rateKey u a "hour" 3600 now) 3600,
        by rw [hcrl, hloop], ?_, ?_, ?_, ?_, ?_, ?_⟩
      · rw [hcrl, hloop]
        simp only [Bool.false_eq_true, false_iff]
        intro hcon
        omega
      · rw [hs2hkm, rateStep_self]
      · intro hx
        exact absurd hx hm
      · intro _
        exact hs2hkh
      · intro _ _
        exact hs2hkd
      · intro _ hx
        exact absurd hx (by omega)
    · have hs3km : rateStep (rateStep (rateStep s (rateKey u a "minute" 60 now) 60)
          (rateKey u a "hour" 3600 now) 3600) (rateKey u a "day" 86400 now) 86400
          (rateKey u a "minute" 60 now)
          = rateStep s (rateKey u a "minute" 60 now) 60 (rateKey u a "minute" 60 now) := by
        rw [rateStep_other _ _ _ _ hmd, hs2hkm]
      have hs3kh : rateStep (rateStep (rateStep s (rateKey u a "minute" 60 now) 60)
          (rateKey u a "hour" 3600 now) 3600) (rateKey u a "day" 86400 now) 86400
          (rateKey u a "hour" 3600 now)
          = some ⟨cCount s (rateKey u a "hour" 3600 now) + 1,
              if cCount s (rateKey u a "hour" 3600 now) = 0 then some 3600
              else cTtl s (rateKey u a "hour" 3600 now)⟩ := by
        rw [rateStep_other _ _ _ _ hhd, hs2hkh]
      have hs3kd : rateStep (rateStep (rateStep s (rateKey u a "minute" 60 now) 60)
          (rateKey u a "hour" 3600 now) 3600) (rateKey u a "day" 86400 now) 86400
          (rateKey u a "day" 86400 now)
          = some ⟨cCount s (rateKey u a "day" 86400 now) + 1,
              if cCount s (rateKey u a "day" 86400 now) = 0 then some 86400
              else cTtl s (rateKey u a "day" 86400 now)⟩ := by
        rw [rateStep_self, hc2kd, cTtl_eq_of_eq hs2hkd]
      have hloop : rateLoop u a now (windowsList st) s
          = (if st.rateLimitPerDay < cCount s (rateKey u a "day" 86400 now) + 1
              then false else true,
             rateStep (rateStep (rateStep s (rateKey u a "minute" 60 now) 60)
               (rateKey u a "hour" 3600 now) 3600) (rateKey u a "day" 86400 now) 86400) := by
        rw [hstep1, rateLoop_cons, hc1kh, if_neg hh, rateLoop_cons, hc2kd]
        by_cases hd : st.rateLimitPerDay < cCount s (rateKey u a "day" 86400 now) + 1
        · rw [if_pos hd, if_pos hd]
        · rw [if_neg hd, if_neg hd]
          rfl
      refine ⟨rateStep (rateStep (rateStep s (rateKey u a "minute" 60 now) 60)
          (rateKey u a "hour" 3600 now) 3600) (rateKey u a "day" 86400 now) 86400,
        by rw [hcrl, hloop], ?_, ?_, ?_, ?_, ?_, ?_⟩
      · rw [hcrl, hloop]
        by_cases hd : st.rateLimitPerDay < cCount s (rateKey u a "day" 86400 now) + 1
        · rw [if_pos hd]
          simp only [Bool.false_eq_true, false_iff]
          intro hcon
          omega
        · rw [if_neg hd]
          simp only [true_iff]
          omega
      · rw [hs3km, rateStep_self]
      · intro hx
        exact absurd hx hm
      · intro _
        exact hs3kh
      · intro _ hx
        exact absurd hx hh
      · intro _ _
        exact hs3kd

/-- C7: with the store available and limiting enabled, `check_rate_limit`
iterates minute, hour, day in order; each processed granularity's counter —
keyed by `(subject, action, granularity, floor(now/window_size))` — is
incremented, with its expiry set to the window size exactly when the new
count is 1; the call returns `false` as soon as some granularity's count
exceeds its limit, leaving every later counter untouched and never
decrementing the ones already incremented; it returns `true` iff no limit is
exceeded. -/
theorem C7_rate_limiter_algorithm (st : Settings) (s : CStore) (now : Nat)
    (u a : String) (hEn : st.rateLimitEnabled = true) :
    ∃ s2, (check_rate_limit st (.ok s) now u a).2 = .ok s2 ∧
      ((check_rate_limit st (.ok s) now u a).1 = true ↔
        (cCount s (rateKey u a "minute" 60 now) + 1 ≤ st.rateLimitPerMinute ∧
         cCount s (rateKey u a "hour" 3600 now) + 1 ≤ st.rateLimitPerHour ∧
         cCount s (rateKey u a "day" 86400 now) + 1 ≤ st.rateLimitPerDay)) ∧
      s2 (rateKey u a "minute" 60 now) =
        some ⟨cCount s (rateKey u a "minute" 60 now) + 1,
          if cCount s (rateKey u a "minute" 60 now) = 0 then some 60
          else cTtl s (rateKey u a "minute" 60 now)⟩ ∧
      (st.rateLimitPerMinute < cCount s (rateKey u a "minute" 60 now) + 1 →
        s2 (rateKey u a "hour" 3600 now) = s (rateKey u a "hour" 3600 now) ∧
        s2 (rateKey u a "day" 86400 now) = s (rateKey u a "day" 86400 now)) ∧
      (cCount s (rateKey u a "minute" 60 now) + 1 ≤ st.rateLimitPerMinute →
        s2 (rateKey u a "hour" 3600 now) =
          some ⟨cCount s (rateKey u a "hour" 3600 now) + 1,
            if cCount s (rateKey u a "hour" 3600 now) = 0 then some 3600
            else cTtl s (rateKey u a "hour" 3600 now)⟩) ∧
      (cCount s (rateKey u a "minute" 60 now) + 1 ≤ st.rateLimitPerMinute →
        st.rateLimitPerHour < cCount s (rateKey u a "hour" 3600 now) + 1 →
        s2 (rateKey u a "day" 86400 now) = s (rateKey u a "day" 86400 now)) ∧
      (cCount s (rateKey u a "minute" 60 now) + 1 ≤ st.rateLimitPerMinute →
        cCount s (rateKey u a "hour" 3600 now) + 1 ≤ st.rateLimitPerHour →
        s2 (rateKey u a "day" 86400 now) =
          some ⟨cCount s (rateKey u a "day" 86400 now) + 1,
            if cCount s (rateKey u a "day" 86400 now) = 0 then some 86400
            else cTtl s (rateKey u a "day" 86400 now)⟩) :=
  check_rate_limit_ok_spec st s now u a hEn

/-- Witness for C7: first call on an empty store admits the request, creates
the minute counter at 1 with a 60-second expiry, and likewise for hour and
day. -/
theorem C7_witness :
    (check_rate_limit defaultSettings (.ok cEmpty) 0 "u1" "api").1 = true ∧
    ∃ s2, (check_rate_limit defaultSettings (.ok cEmpty) 0 "u1" "api").2 = .ok s2 ∧
      s2 (rateKey "u1" "api" "minute" 60 0) = some ⟨1, some 60⟩ ∧
      s2 (rateKey "u1" "api" "hour" 3600 0) = some ⟨1, some 3600⟩ ∧
      s2 (rateKey "u1" "api" "day" 86400 0) = some ⟨1, some 86400⟩ := by
  obtain ⟨s2, h2, hiff, hkm, _, hkh, _, hkd⟩ :=
    C7_rate_limiter_algorithm defaultSettings cEmpty 0 "u1" "api" rfl
  refine ⟨hiff.mpr (by decide), s2, h2, hkm.trans (by decide),
    (hkh (by decide)).trans (by decide), (hkd (by decide) (by decide)).trans (by decide)⟩

/-- C10: when `check_rate_limit` rejects because a granularity's count
exceeded its limit, the counters of every granularity later in the
(minute, hour, day) iteration order are left unchanged: a minute-limit
rejection touches neither the hour nor the day key, and an hour-limit
rejection leaves the day key unchanged. -/
theorem C10_early_return_leaves_later_counters (st : Settings) (s : CStore)
    (now : Nat) (u a : String) (hEn : st.rateLimitEnabled = true) :
    (st.rateLimitPerMinute < cCount s (rateKey u a "minute" 60 now) + 1 →
      (check_rate_limit st (.ok s) now u a).1 = false ∧
      ∃ s2, (check_rate_limit st (.ok s) now u a).2 = .ok s2 ∧
        s2 (rateKey u a "hour" 3600 now) = s (rateKey u a "hour" 3600 now) ∧
        s2 (rateKey u a "day" 86400 now) = s (rateKey u a "day" 86400 now)) ∧
    (cCount s (rateKey u a "minute" 60 now) + 1 ≤ st.rateLimitPerMinute →
      st.rateLimitPerHour < cCount s (rateKey u a "hour" 3600 now) + 1 →
      (check_rate_limit st (.ok s) now u a).1 = false ∧
      ∃ s2, (check_rate_limit st (.ok s) now u a).2 = .ok s2 ∧
        s2 (rateKey u a "day" 86400 now) = s (rateKey u a "day" 86400 now)) := by
  obtain ⟨s2, h2, hiff, _, hearly, _, hhd, _⟩ :=
    check_rate_limit_ok_spec st s now u a hEn
  constructor
  · intro hm
    have hfalse : (check_rate_limit st (.ok s) now u a).1 = false := by
      cases hb : (check_rate_limit st (.ok s) now u a).1
      · rfl
      · obtain ⟨hc, _, _⟩ := hiff.mp hb
        omega
    exact ⟨hfalse, s2, h2, (hearly hm).1, (hearly hm).2⟩
  · intro hm hh
    have hfalse : (check_rate_limit st (.ok s) now u a).1 = false := by
      cases hb : (check_rate_limit st (.ok s) now u a).1
      · rfl
      · obtain ⟨_, hc, _⟩ := hiff.mp hb
        omega
    exact ⟨hfalse, s2, h2, hhd hm hh⟩

/-- Witness for C10: with a minute limit of 0 every call trips the minute
window; on an empty store the rejection leaves the hour and day keys
absent. -/
theorem C10_witness :
    (check_rate_limit { defaultSettings with rateLimitPerMinute := 0 }
        (.ok cEmpty) 0 "u1" "api").1 = false ∧
    ∃ s2, (check_rate_limit { defaultSettings with rateLimitPerMinute := 0 }
        (.ok cEmpty) 0 "u1" "api").2 = .ok s2 ∧
      s2 (rateKey "u1" "api" "hour" 3600 0) = none ∧
      s2 (rateKey "u1" "api" "day" 86400 0) = none := by
  obtain ⟨hfalse, s2, h2, hh, hd⟩ :=
    (C10_early_return_leaves_later_counters
      { defaultSettings with rateLimitPerMinute := 0 } cEmpty 0 "u1" "api" rfl).1
      (by decide)
  exact ⟨hfalse, s2, h2, hh.trans (by decide), hd.trans (by decide)⟩

/-- C4: for a valid, unrevoked refresh token `r` of an active principal, the
refresh endpoint returns a new access+refresh pair and revokes `r`; any later
presentation of `r` while it is unexpired — to the refresh endpoint or as a
bearer token — yields the "Token has been revoked" 401; and when the revoke
call's store write fails, the failure is swallowed inside `blacklist_token`
and the new pair is still returned. -/
theorem C4_refresh_rotation (st : Settings) (s : BStore) (db : List UserRec)
    (now v : Nat) (r : Token) (user : UserRec)
    (hwf : r.wellFormed = true) (hsec : r.secret = st.secretKey)
    (htyp : r.claims.typ = "refresh") (hunexp : ¬ r.claims.exp < now)
    (hunrev : bGet s now r = false)
    (huser : findActiveById db r.claims.sub = some user)
    (hv1 : now ≤ v) (hv2 : v < r.claims.exp) :
    refresh_endpoint st (.ok s) db now r
      = (.ok ⟨create_access_token st now user.id none,
              create_refresh_token st now user.id none⟩,
         .ok (bSet s r now (r.claims.exp - now))) ∧
    (refresh_endpoint st (.ok (bSet s r now (r.claims.exp - now))) db v r).1
      = .httpError 401 "Token has been revoked" ∧
    get_current_user st (.ok (bSet s r now (r.claims.exp - now))) db v r
      = .httpError 401 "Token has been revoked" ∧
    refresh_endpoint st (.writeFailing s) db now r
      = (.ok ⟨create_access_token st now user.id none,
              create_refresh_token st now user.id none⟩,
         .writeFailing s) := by
  have hdec : decode_token st.secretKey (.ok s) now r = .ok r.claims := by
    unfold decode_token
    rw [if_pos ⟨hwf, hsec, hunexp⟩]
    simp [hunrev]
  have hbl : blacklist_token st.secretKey (.ok s) now r none
      = .ok (bSet s r now (r.claims.exp - now)) := by
    unfold blacklist_token
    simp [hwf, hsec, show 0 < r.claims.exp - now by omega,
      show now < r.claims.exp by omega]
  have hbrev : bGet (bSet s r now (r.claims.exp - now)) v r = true := by
    unfold bGet bSet
    simp
    omega
  have hdecrev : decode_token st.secretKey (.ok (bSet s r now (r.claims.exp - now))) v r
      = .httpError 401 "Token has been revoked" := by
    unfold decode_token
    rw [if_pos ⟨hwf, hsec, by omega⟩]
    simp [hbrev]
  have hdecwf : decode_token st.secretKey (.writeFailing s) now r = .ok r.claims := by
    unfold decode_token
    rw [if_pos ⟨hwf, hsec, hunexp⟩]
    simp [hunrev]
  refine ⟨?_, ?_, ?_, ?_⟩
  · unfold refresh_endpoint
    rw [hdec]
    simp [htyp, huser, hbl]
  · unfold refresh_endpoint
    rw [hdecrev]
  · unfold get_current_user
    rw [hdecrev]
  · unfold refresh_endpoint
    rw [hdecwf]
    simp [htyp, huser]
    rfl

/-- Witness for C4: the sample refresh token, revoked at time 0, is rejected
as revoked at time 1000 in both flows. -/
theorem C4_witness :
    refresh_endpoint defaultSettings (.ok bEmpty) [sampleActiveUser] 0
        sampleRefreshToken
      = (.ok ⟨create_access_token defaultSettings 0 "u1" none,
              create_refresh_token defaultSettings 0 "u1" none⟩,
         .ok (bSet bEmpty sampleRefreshToken 0 604800)) ∧
    (refresh_endpoint defaultSettings
        (.ok (bSet bEmpty sampleRefreshToken 0 604800)) [sampleActiveUser]
        1000 sampleRefreshToken).1
      = .httpError 401 "Token has been revoked" ∧
    get_current_user defaultSettings
        (.ok (bSet bEmpty sampleRefreshToken 0 604800)) [sampleActiveUser]
        1000 sampleRefreshToken
      = .httpError 401 "Token has been revoked" := by
  obtain ⟨h1, h2, h3, _⟩ := C4_refresh_rotation defaultSettings bEmpty
    [sampleActiveUser] 0 1000 sampleRefreshToken sampleActiveUser rfl rfl rfl
    (by decide) rfl rfl (by decide) (by decide)
  exact ⟨h1, h2, h3⟩

/-- C8 counterexample: in the refresh flow an inactive principal is NOT
mapped to 403 — the endpoint's user query filters on `is_active == True`, so
a valid refresh token whose subject is inactive yields 401 "User not
found". -/
theorem C8_counterexample :
    (refresh_endpoint defaultSettings (.ok bEmpty) [sampleInactiveUser] 0
        sampleRefreshToken).1 = .httpError 401 "User not found" ∧
    (401 : Nat) ≠ 403 := by
  refine ⟨rfl, by decide⟩

/-- C8 amended: the boundary status codes are `InvalidCredentials`,
`InvalidToken`, `RevokedToken`, `WrongTokenType` → 401 and `RateLimited` →
429; `InactivePrincipal` → 403 holds in the login flow only — in the refresh
flow an inactive (or absent) principal is rejected with 401 "User not found",
because the user lookup filters on the active flag. -/
theorem C8_status_codes_amended (st : Settings) (connC : RConn CStore)
    (s : BStore) (db : List UserRec) (now : Nat)
    (username password : String) (t : Token) (u : UserRec) :
    (findByUsername db username = none →
      login st connC db now username password
        = (.httpError 401 "Incorrect username or password", connC)) ∧
    (findByUsername db username = some u →
      verify_password password u.hashedPassword = false →
      (login st connC db now username password).1
        = .httpError 401 "Incorrect username or password") ∧
    (findByUsername db username = some u →
      verify_password password u.hashedPassword = true →
      u.isActive = false →
      (login st connC db now username password).1
        = .httpError 403 "User account is disabled") ∧
    (findByUsername db username = some u →
      verify_password password u.hashedPassword = true →
      u.isActive = true →
      (check_rate_limit st connC now u.id "login").1 = false →
      (login st connC db now username password).1
        = .httpError 429 "Too many login attempts") ∧
    (¬ (t.wellFormed = true ∧ t.secret = st.secretKey ∧ ¬ t.claims.exp < now) →
      (refresh_endpoint st (.ok s) db now t).1
        = .httpError 401 "Could not validate credentials") ∧
    (t.wellFormed = true → t.secret = st.secretKey → ¬ t.claims.exp < now →
      bGet s now t = true →
      (refresh_endpoint st (.ok s) db now t).1
        = .httpError 401 "Token has been revoked") ∧
    (t.wellFormed = true → t.secret = st.secretKey → ¬ t.claims.exp < now →
      bGet s now t = false → t.claims.typ ≠ "refresh" →
      (refresh_endpoint st (.ok s) db now t).1
        = .httpError 401 "Invalid token type") ∧
    (t.wellFormed = true → t.secret = st.secretKey → ¬ t.claims.exp < now →
      bGet s now t = false → t.claims.typ = "refresh" →
      findActiveById db t.claims.sub = none →
      (refresh_endpoint st (.ok s) db now t).1
        = .httpError 401 "User not found") := by
  refine ⟨?_, ?_, ?_, ?_, ?_, ?_, ?_, ?_⟩
  · intro h
    unfold login
    rw [h]
  · intro hu hpw
    unfold login
    rw [hu]
    simp [hpw]
  · intro hu hpw hact
    unfold login
    rw [hu]
    simp [hpw, hact]
  · intro hu hpw hact hrl
    unfold login
    rw [hu]
    simp [hpw, hact, hrl]
  · intro hbad
    unfold refresh_endpoint decode_token
    rw [if_neg hbad]
  · intro h1 h2 h3 hb
    unfold refresh_endpoint decode_token
    rw [if_pos ⟨h1, h2, h3⟩]
    simp [hb]
  · intro h1 h2 h3 hb hty
    have hdec : decode_token st.secretKey (.ok s) now t = .ok t.claims := by
      unfold decode_token
      rw [if_pos ⟨h1, h2, h3⟩]
      simp [hb]
    unfold refresh_endpoint
    rw [hdec]
    simp [hty]
  · intro h1 h2 h3 hb hty hnone
    have hdec : decode_token st.secretKey (.ok s) now t = .ok t.claims := by
      unfold decode_token
      rw [if_pos ⟨h1, h2, h3⟩]
      simp [hb]
    unfold refresh_endpoint
    rw [hdec]
    simp [hty, hnone]

/-- Witness for C8: a disabled account at login gets 403; presenting an
access token to the refresh endpoint gets 401 "Invalid token type". -/
theorem C8_witness :
    (login defaultSettings (.ok cEmpty) [sampleInactiveUser] 0 "alice" "pw").1
      = .httpError 403 "User account is disabled" ∧
    (refresh_endpoint defaultSettings (.ok bEmpty) [sampleActiveUser] 0
        sampleAccessToken).1 = .httpError 401 "Invalid token type" := by
  refine ⟨?_, ?_⟩
  · exact (C8_status_codes_amended defaultSettings (.ok cEmpty) bEmpty
      [sampleInactiveUser] 0 "alice" "pw" sampleAccessToken
      sampleInactiveUser).2.2.1 rfl (by decide) rfl
  · exact (C8_status_codes_amended defaultSettings (.ok cEmpty) bEmpty
      [sampleActiveUser] 0 "alice" "pw" sampleAccessToken
      sampleActiveUser).2.2.2.2.2.2.1 rfl rfl (by decide) rfl (by decide)

end AgenticPersona
